import Mathlib

/-!
Verification of the centrifugo-example message relay and subscription
multiplexing layer.

Server side (Go backend, `main.go`): the message router `sendMessage`, the
credential issuer `generateToken`/`getToken`.  The broker publish call
`publishToCentrifugo` is an external HTTP effect; it is modelled as an oracle
`pub : String → Message → Bool` (true = the publish returned OK), and every
publish attempt the handler makes is recorded, in order, in an `attempts`
trace.

Client side (Svelte `+page.svelte`): the subscription multiplexer
(`joinTopic`, the per-handle publication callback), and the session reconnect
controller (the reactive username statement, `reconnectWithNewToken`,
`getTokenAndConnect`).  Handle identity is made explicit with a numeric id and
the connection generation that created the handle.
-/

namespace Centrifugo

/-- The message payload constructed by the router (struct `Message`). -/
structure Message where
  id : String
  topic : String
  content : String
  author : String
  timestamp : Nat
deriving DecidableEq, Repr

/-- Body of `POST /api/messages` (struct `SendMessageRequest`). -/
structure SendMessageRequest where
  topic : String
  content : String
  author : String
deriving DecidableEq, Repr

/-- Body of `POST /api/token` (struct `TokenRequest`). -/
structure TokenRequest where
  user : String
deriving DecidableEq, Repr

/-- Channel naming: `fmt.Sprintf("topic:%s", topic)`. -/
def mkChannelName (topic : String) : String := "topic:" ++ topic

/-- The fixed topic catalog used by the `"all"` broadcast in `sendMessage`
(and returned by `getTopics`). -/
def topicCatalog : List String := ["all", "general", "tech", "random", "announcements"]

/-- HTTP outcome of the `sendMessage` handler. -/
inductive HttpResponse where
  | badRequest (err : String)
  | internalError (err : String)
  | okMessage (m : Message)
deriving DecidableEq, Repr

/-- One publish attempt made against the broker: channel, payload, and whether
`publishToCentrifugo` returned without error. -/
structure Attempt where
  channel : String
  payload : Message
  succeeded : Bool
deriving DecidableEq, Repr

/-- Result of one `sendMessage` request: the HTTP response together with the
ordered trace of publish attempts made to the broker. -/
structure SendOutcome where
  response : HttpResponse
  attempts : List Attempt
deriving DecidableEq, Repr

/-- Message construction in `sendMessage`: id from the clock reading,
timestamp now. -/
def mkMessage (now : Nat) (req : SendMessageRequest) : Message :=
  { id := toString now, topic := req.topic, content := req.content,
    author := req.author, timestamp := now }

/-- The `for _, topic := range topics` loop of the `"all"` branch: publish to
every channel, log failures, continue regardless. -/
def fanOut (pub : String → Message → Bool) (m : Message) : List String → List Attempt
  | [] => []
  | t :: ts =>
    let ch := mkChannelName t
    { channel := ch, payload := m, succeeded := pub ch m } :: fanOut pub m ts

/-- The `sendMessage` handler.  `body = none` is a request whose JSON body
fails `ShouldBindJSON`; `pub` is the broker publish oracle; `now` the clock. -/
def sendMessage (pub : String → Message → Bool) (now : Nat)
    (body : Option SendMessageRequest) : SendOutcome :=
  match body with
  | none => { response := .badRequest "Invalid request format", attempts := [] }
  | some req =>
    if req.topic = "" ∨ req.content = "" ∨ req.author = "" then
      { response := .badRequest "Topic, content, and author are required", attempts := [] }
    else
      let message := mkMessage now req
      if req.topic = "all" then
        { response := .okMessage message, attempts := fanOut pub message topicCatalog }
      else
        let channelName := mkChannelName req.topic
        if pub channelName message then
          { response := .okMessage message,
            attempts := [⟨channelName, message, true⟩,
                         ⟨"topic:all", message, pub "topic:all" message⟩] }
        else
          { response := .internalError "Failed to send message",
            attempts := [⟨channelName, message, false⟩] }

/-- JWT claims constructed by `generateToken`. -/
structure Claims where
  sub : String
  iat : Int
  exp : Int
deriving DecidableEq, Repr

/-- `generateToken`: build the claims {sub, iat = now, exp = now + 24h} and
sign them with the process-wide HMAC secret.  Signing is an external
library call, modelled by the oracle `sign` (`none` = signing error). -/
def generateToken (sign : Claims → String → Option String) (secret : String)
    (now : Int) (user : String) : Option String :=
  sign { sub := user, iat := now, exp := now + 24 * 60 * 60 } secret

/-- HTTP outcome of the `getToken` handler. -/
inductive TokenHttpResponse where
  | badRequest (err : String)
  | internalError (err : String)
  | okToken (token : String)
deriving DecidableEq, Repr

/-- The `getToken` handler.  `body = none` is a request whose JSON body fails
`ShouldBindJSON`. -/
def getToken (sign : Claims → String → Option String) (secret : String) (now : Int)
    (body : Option TokenRequest) : TokenHttpResponse :=
  match body with
  | none => .badRequest "Invalid request format"
  | some req =>
    if req.user = "" then .badRequest "User is required"
    else
      match generateToken sign secret now req.user with
      | none => .internalError "Failed to generate token"
      | some t => .okToken t

/-!
Client side.  `+page.svelte` keeps module-level state: `connected`,
`currentTopic`, `messages`, the active `subscription`, the
`subscriptions` registry (a map channel name → subscription handle, never
cleared), and the `centrifuge` connection object.  Handle identity is modelled
by a numeric id plus the generation number of the `Centrifuge` instance whose
`newSubscription` created the handle (each `new Centrifuge(...)` bumps the
generation).
-/

/-- A subscription handle returned by `centrifuge.newSubscription`. -/
structure Handle where
  id : Nat
  channel : String
  generation : Nat
deriving DecidableEq, Repr

/-- The module-level client state of `+page.svelte`. -/
structure ClientState where
  connected : Bool
  generation : Nat
  currentTopic : String
  messages : List Message
  subscription : Option Handle
  subscriptions : List (String × Handle)
  nextHandleId : Nat
deriving DecidableEq, Repr

/-- Lookup `subscriptions[channelName]`. -/
def lookupHandle (subs : List (String × Handle)) (ch : String) : Option Handle :=
  match subs with
  | [] => none
  | (c, h) :: rest => if c = ch then some h else lookupHandle rest ch

/-- `joinTopic(topic)`: unsubscribe the active handle, clear the local log,
set the active topic; when connected, reuse the registry handle for
`topic:<topic>` or create one on first use (registering it), then subscribe. -/
def joinTopic (s : ClientState) (topic : String) : ClientState :=
  let s1 := { s with messages := [], currentTopic := topic }
  if s1.connected then
    let channelName := mkChannelName topic
    match lookupHandle s1.subscriptions channelName with
    | some h => { s1 with subscription := some h }
    | none =>
      let h : Handle := { id := s1.nextHandleId, channel := channelName,
                          generation := s1.generation }
      { s1 with subscription := some h,
                subscriptions := (channelName, h) :: s1.subscriptions,
                nextHandleId := s1.nextHandleId + 1 }
  else s1

/-- The `subscription.on('publication', ...)` callback created in `joinTopic`:
the closure captures the handle's topic and appends the delivered message to
the log only when that topic is still the current one. -/
def onPublication (s : ClientState) (handleTopic : String) (m : Message) : ClientState :=
  if s.currentTopic = handleTopic then { s with messages := s.messages ++ [m] } else s

/-- A sequence of broker deliveries on one handle, applied in broker order. -/
def deliverAll (s : ClientState) (handleTopic : String) (ms : List Message) : ClientState :=
  ms.foldl (fun st m => onPublication st handleTopic m) s

/-- Initial module-level state (`connected = false`, `currentTopic = 'all'`,
empty log and registry, first `Centrifuge` instance is generation 0). -/
def clientInit : ClientState :=
  { connected := false, generation := 0, currentTopic := "all", messages := [],
    subscription := none, subscriptions := [], nextHandleId := 0 }

/-- The `centrifuge.on('connected', ...)` handler: mark connected and rejoin
the current topic. -/
def onConnected (s : ClientState) : ClientState :=
  joinTopic { s with connected := true } s.currentTopic

/-- `centrifuge.disconnect()` as observed by the `'disconnected'` handler. -/
def disconnectClient (s : ClientState) : ClientState := { s with connected := false }

/-- `reconnectWithNewToken` followed by the delayed `initializeCentrifugo`:
disconnect, construct a fresh `Centrifuge` instance (next generation; the
`subscriptions` registry is module-level and carries over), connect, and run
the `'connected'` handler. -/
def reconnectWithNewToken (s : ClientState) : ClientState :=
  let s1 := disconnectClient s
  let s2 := { s1 with generation := s1.generation + 1 }
  onConnected s2

/-- Observable steps of the reconnect cycle. -/
inductive Ev where
  | disconnect
  | delay (ms : Nat)
  | fetchCredential
  | connect
  | rejoin (topic : String)
deriving DecidableEq, Repr

/-- The disconnect → 500ms delay → token fetch → connect → rejoin cycle run
by `reconnectWithNewToken` / `getTokenAndConnect` / the `'connected'`
handler. -/
def reconnectCycle (topic : String) : List Ev :=
  [Ev.disconnect, Ev.delay 500, Ev.fetchCredential, Ev.connect, Ev.rejoin topic]

/-- The reactive statement watching `username`: fire `reconnectWithNewToken`
only when the username is non-empty, differs from the previously applied one,
and the previous one is non-initial; record the applied username first.
Returns the new `previousUsername` and the events emitted. -/
def usernameReaction (previousUsername username currentTopic : String) :
    String × List Ev :=
  if username ≠ "" ∧ username ≠ previousUsername ∧ previousUsername ≠ "" then
    (username, reconnectCycle currentTopic)
  else if previousUsername = "" then
    (username, [])
  else
    (previousUsername, [])

/-- Outcome of the credential fetch inside `getTokenAndConnect`. -/
inductive TokenFetch where
  | okToken (token : String)
  | fetchFailed
  | badStatus
deriving DecidableEq, Repr

/-- What `getTokenAndConnect` did: whether a connection was opened, with which
token, and whether the failure escaped to the caller. -/
structure ConnectAttempt where
  connectionOpened : Bool
  tokenUsed : Option String
  errorPropagated : Bool
deriving DecidableEq, Repr

/-- `getTokenAndConnect`: fetch a token and connect with it; a fetch error or
a non-OK response lands in the catch block, which logs and opens an
unauthenticated (token-less) connection instead. -/
def getTokenAndConnect : TokenFetch → ConnectAttempt
  | .okToken t => { connectionOpened := true, tokenUsed := some t, errorPropagated := false }
  | .fetchFailed => { connectionOpened := true, tokenUsed := none, errorPropagated := false }
  | .badStatus => { connectionOpened := true, tokenUsed := none, errorPropagated := false }

/-! Helper lemmas about the client state machine. -/

/-- `joinTopic` does not change the connection flag. -/
theorem joinTopic_connected (s : ClientState) (t : String) :
    (joinTopic s t).connected = s.connected := by
  unfold joinTopic
  by_cases hc : s.connected <;>
    cases hx : lookupHandle s.subscriptions (mkChannelName t) <;> simp [hc, hx]

/-- Registered handles survive any `joinTopic`: the registry is only ever
extended with a channel that was absent. -/
theorem lookupHandle_joinTopic (s : ClientState) (t ch : String) (h : Handle)
    (hl : lookupHandle s.subscriptions ch = some h) :
    lookupHandle (joinTopic s t).subscriptions ch = some h := by
  unfold joinTopic
  by_cases hc : s.connected
  · cases hx : lookupHandle s.subscriptions (mkChannelName t) with
    | some h' => simp [hc, hx, hl]
    | none =>
      have hne : mkChannelName t ≠ ch := by
        intro he
        rw [he, hl] at hx
        exact Option.noConfusion hx
      simp [hc, hx, lookupHandle, hne, hl]
  · simp [hc, hl]

/-- When the channel already has a handle, `joinTopic` reuses it: only the
log, the active topic and the active subscription change. -/
theorem joinTopic_reuse (s : ClientState) (t : String) (h : Handle)
    (hc : s.connected = true)
    (hl : lookupHandle s.subscriptions (mkChannelName t) = some h) :
    joinTopic s t = { s with messages := [], currentTopic := t, subscription := some h } := by
  unfold joinTopic
  simp [hc, hl]

/-- After a connected `joinTopic`, the active subscription exists and is the
registry's handle for the joined channel. -/
theorem joinTopic_active (s : ClientState) (t : String) (hc : s.connected = true) :
    ∃ h, (joinTopic s t).subscription = some h ∧
      lookupHandle (joinTopic s t).subscriptions (mkChannelName t) = some h := by
  unfold joinTopic
  cases hx : lookupHandle s.subscriptions (mkChannelName t) with
  | some h' => exact ⟨h', by simp [hc, hx], by simp [hc, hx]⟩
  | none =>
    refine ⟨{ id := s.nextHandleId, channel := mkChannelName t, generation := s.generation },
            by simp [hc, hx], ?_⟩
    simp [hc, hx, lookupHandle]

/-- The publication callback never changes the active topic. -/
theorem onPublication_currentTopic (s : ClientState) (t : String) (m : Message) :
    (onPublication s t m).currentTopic = s.currentTopic := by
  unfold onPublication
  split <;> rfl

/-- Deliveries on the handle of the active topic are appended in delivery
order. -/
theorem deliverAll_messages (t : String) (ms : List Message) :
    ∀ s : ClientState, s.currentTopic = t →
      (deliverAll s t ms).messages = s.messages ++ ms := by
  induction ms with
  | nil => intro s _; simp [deliverAll]
  | cons m ms ih =>
    intro s h
    have h1 : onPublication s t m = { s with messages := s.messages ++ [m] } := by
      unfold onPublication
      rw [if_pos h]
    have h2 : deliverAll s t (m :: ms) = deliverAll (onPublication s t m) t ms := rfl
    rw [h2, ih (onPublication s t m) (by rw [h1]; exact h), h1]
    simp

/-! Claim theorems. -/

/-- C1: for a non-aggregate topic with all fields non-empty, the router
publishes the message to `topic:T` first; if that publish fails, the caller
gets an internal error and the `topic:all` mirror is not attempted; if it
succeeds, exactly one best-effort mirror publish to `topic:all` is attempted
and the reported success does not depend on the mirror's outcome. -/
theorem C1_concrete_topic_routing (pub : String → Message → Bool) (now : Nat)
    (req : SendMessageRequest) (hall : req.topic ≠ "all") (ht : req.topic ≠ "")
    (hc : req.content ≠ "") (ha : req.author ≠ "") :
    (pub (mkChannelName req.topic) (mkMessage now req) = false →
      sendMessage pub now (some req) =
        { response := .internalError "Failed to send message",
          attempts := [⟨mkChannelName req.topic, mkMessage now req, false⟩] }) ∧
    (pub (mkChannelName req.topic) (mkMessage now req) = true →
      sendMessage pub now (some req) =
        { response := .okMessage (mkMessage now req),
          attempts := [⟨mkChannelName req.topic, mkMessage now req, true⟩,
                       ⟨"topic:all", mkMessage now req,
                        pub "topic:all" (mkMessage now req)⟩] }) := by
  have hval : ¬(req.topic = "" ∨ req.content = "" ∨ req.author = "") := by
    simp [ht, hc, ha]
  constructor
  · intro hpub
    simp [sendMessage, hval, hall, hpub]
  · intro hpub
    simp [sendMessage, hval, hall, hpub]

/-- C1 witness: a failing and a succeeding broker at `{topic:"general",
content:"hi", author:"alice"}`. -/
theorem C1_concrete_topic_routing_witness :
    sendMessage (fun _ _ => false) 0 (some ⟨"general", "hi", "alice"⟩) =
      { response := .internalError "Failed to send message",
        attempts := [⟨mkChannelName "general", mkMessage 0 ⟨"general", "hi", "alice"⟩, false⟩] } ∧
    sendMessage (fun _ _ => true) 0 (some ⟨"general", "hi", "alice"⟩) =
      { response := .okMessage (mkMessage 0 ⟨"general", "hi", "alice"⟩),
        attempts := [⟨mkChannelName "general", mkMessage 0 ⟨"general", "hi", "alice"⟩, true⟩,
                     ⟨"topic:all", mkMessage 0 ⟨"general", "hi", "alice"⟩, true⟩] } := by
  refine ⟨?_, ?_⟩
  · exact (C1_concrete_topic_routing (fun _ _ => false) 0 ⟨"general", "hi", "alice"⟩
      (by decide) (by decide) (by decide) (by decide)).1 rfl
  · exact (C1_concrete_topic_routing (fun _ _ => true) 0 ⟨"general", "hi", "alice"⟩
      (by decide) (by decide) (by decide) (by decide)).2 rfl

/-- C2: with topic `"all"` and non-empty content and author, the router makes
exactly five publish attempts, one per channel of the fixed catalog (the
aggregate channel included), each carrying the identical message body, and
reports success whatever the broker answers. -/
theorem C2_all_topic_fanout (pub : String → Message → Bool) (now : Nat)
    (content author : String) (hc : content ≠ "") (ha : author ≠ "") :
    (sendMessage pub now (some ⟨"all", content, author⟩)).response
        = .okMessage (mkMessage now ⟨"all", content, author⟩) ∧
    (sendMessage pub now (some ⟨"all", content, author⟩)).attempts.length = 5 ∧
    (sendMessage pub now (some ⟨"all", content, author⟩)).attempts.map Attempt.channel
        = topicCatalog.map mkChannelName ∧
    ∀ a ∈ (sendMessage pub now (some ⟨"all", content, author⟩)).attempts,
      a.payload = mkMessage now ⟨"all", content, author⟩ := by
  refine ⟨?_, ?_, ?_, ?_⟩ <;>
    simp [sendMessage, hc, ha, fanOut, topicCatalog]

/-- C2 witness: `{topic:"all", content:"hi", author:"bob"}` against a broker
failing on every channel still yields success and the five catalog
channels. -/
theorem C2_all_topic_fanout_witness :
    (sendMessage (fun _ _ => false) 0 (some ⟨"all", "hi", "bob"⟩)).response
        = .okMessage (mkMessage 0 ⟨"all", "hi", "bob"⟩) ∧
    (sendMessage (fun _ _ => false) 0 (some ⟨"all", "hi", "bob"⟩)).attempts.length = 5 ∧
    (sendMessage (fun _ _ => false) 0 (some ⟨"all", "hi", "bob"⟩)).attempts.map Attempt.channel
        = topicCatalog.map mkChannelName := by
  have h := C2_all_topic_fanout (fun _ _ => false) 0 "hi" "bob" (by decide) (by decide)
  exact ⟨h.1, h.2.1, h.2.2.1⟩

/-- C3: an empty topic, content or author makes the router answer the
validation error with an empty publish trace: no message reaches the
broker. -/
theorem C3_validation_no_publish (pub : String → Message → Bool) (now : Nat)
    (req : SendMessageRequest)
    (h : req.topic = "" ∨ req.content = "" ∨ req.author = "") :
    sendMessage pub now (some req) =
      { response := .badRequest "Topic, content, and author are required",
        attempts := [] } := by
  simp [sendMessage, h]

/-- C3 witness: the three single-empty-field requests are each rejected with
no publish attempt. -/
theorem C3_validation_no_publish_witness :
    sendMessage (fun _ _ => true) 0 (some ⟨"", "hi", "bob"⟩) =
      { response := .badRequest "Topic, content, and author are required",
        attempts := [] } ∧
    sendMessage (fun _ _ => true) 0 (some ⟨"tech", "", "bob"⟩) =
      { response := .badRequest "Topic, content, and author are required",
        attempts := [] } ∧
    sendMessage (fun _ _ => true) 0 (some ⟨"tech", "hi", ""⟩) =
      { response := .badRequest "Topic, content, and author are required",
        attempts := [] } :=
  ⟨C3_validation_no_publish (fun _ _ => true) 0 ⟨"", "hi", "bob"⟩ (Or.inl rfl),
   C3_validation_no_publish (fun _ _ => true) 0 ⟨"tech", "", "bob"⟩ (Or.inr (Or.inl rfl)),
   C3_validation_no_publish (fun _ _ => true) 0 ⟨"tech", "hi", ""⟩ (Or.inr (Or.inr rfl))⟩

/-- C4: the credential issuer rejects an empty user name with a validation
error, and for a non-empty user name signs exactly the claims
{sub = user, iat = now, exp = now + 24h} with the process-wide secret: a
produced token is the signature of those claims, and a signing failure is a
500 internal error, never an unsigned token. -/
theorem C4_credential_issuer (sign : Claims → String → Option String)
    (secret : String) (now : Int) (user : String) :
    getToken sign secret now (some ⟨""⟩) = .badRequest "User is required" ∧
    (user ≠ "" →
      getToken sign secret now (some ⟨user⟩) =
        match sign { sub := user, iat := now, exp := now + 24 * 60 * 60 } secret with
        | some t => .okToken t
        | none => .internalError "Failed to generate token") := by
  constructor
  · simp [getToken]
  · intro h
    simp only [getToken, generateToken, if_neg h]
    cases sign { sub := user, iat := now, exp := now + 24 * 60 * 60 } secret <;> rfl

/-- C4 witness: with a concrete signer, the empty user is rejected and
`"alice"` receives the signature of her exact claims. -/
theorem C4_credential_issuer_witness :
    getToken (fun c s => some (c.sub ++ s)) "k" 0 (some ⟨""⟩)
      = .badRequest "User is required" ∧
    getToken (fun c s => some (c.sub ++ s)) "k" 0 (some ⟨"alice"⟩)
      = .okToken ("alice" ++ "k") := by
  have h := C4_credential_issuer (fun c s => some (c.sub ++ s)) "k" 0 "alice"
  exact ⟨h.1, h.2 (by decide)⟩

/-- C5: switching the active topic A→B→A reuses the identical handle for A on
the second switch; a handle once registered is never removed from the registry
by topic switches; and when a channel already has a handle, `joinTopic`
creates nothing new (registry and handle counter unchanged). -/
theorem C5_handle_registry (s : ClientState) (A B : String) (hc : s.connected = true) :
    (joinTopic (joinTopic (joinTopic s A) B) A).subscription
        = (joinTopic s A).subscription ∧
    (∀ ch h, lookupHandle s.subscriptions ch = some h →
      lookupHandle (joinTopic (joinTopic (joinTopic s A) B) A).subscriptions ch = some h) ∧
    (∀ h, lookupHandle s.subscriptions (mkChannelName A) = some h →
      (joinTopic s A).subscriptions = s.subscriptions ∧
      (joinTopic s A).nextHandleId = s.nextHandleId) := by
  have hc1 : (joinTopic s A).connected = true := by rw [joinTopic_connected]; exact hc
  have hc2 : (joinTopic (joinTopic s A) B).connected = true := by
    rw [joinTopic_connected]; exact hc1
  obtain ⟨h1, hs1, hl1⟩ := joinTopic_active s A hc
  refine ⟨?_, ?_, ?_⟩
  · have hl2 : lookupHandle (joinTopic (joinTopic s A) B).subscriptions
        (mkChannelName A) = some h1 := lookupHandle_joinTopic _ B _ h1 hl1
    rw [joinTopic_reuse _ A h1 hc2 hl2, hs1]
  · intro ch h hl
    exact lookupHandle_joinTopic _ A _ h
      (lookupHandle_joinTopic _ B _ h (lookupHandle_joinTopic _ A _ h hl))
  · intro h hl
    rw [joinTopic_reuse s A h hc hl]
    exact ⟨rfl, rfl⟩

/-- C5 witness: a connected client joining general→tech→general reuses the
handle of the first join. -/
theorem C5_handle_registry_witness :
    (joinTopic (joinTopic (joinTopic { clientInit with connected := true } "general")
        "tech") "general").subscription
      = (joinTopic { clientInit with connected := true } "general").subscription :=
  (C5_handle_registry { clientInit with connected := true } "general" "tech" rfl).1

/-- C6: a delivery on a handle is appended to the end of the local log exactly
when the handle's topic equals the active topic at delivery time; otherwise
the whole state is unchanged (the message is dropped, not buffered); and a
sequence of deliveries on the active topic's handle is appended in delivery
order. -/
theorem C6_delivery_filter (s : ClientState) (t : String) (m : Message)
    (ms : List Message) :
    (s.currentTopic = t →
      onPublication s t m = { s with messages := s.messages ++ [m] }) ∧
    (s.currentTopic ≠ t → onPublication s t m = s) ∧
    (s.currentTopic = t → (deliverAll s t ms).messages = s.messages ++ ms) := by
  refine ⟨?_, ?_, fun h => deliverAll_messages t ms s h⟩
  · intro h
    unfold onPublication
    rw [if_pos h]
  · intro h
    unfold onPublication
    rw [if_neg h]

/-- C6 witness: with active topic `"tech"`, two deliveries on the tech handle
are appended in order, and a delivery on the `"general"` handle leaves the
state untouched. -/
theorem C6_delivery_filter_witness :
    (deliverAll { clientInit with currentTopic := "tech" } "tech"
        [mkMessage 1 ⟨"tech", "a", "u"⟩, mkMessage 2 ⟨"tech", "b", "u"⟩]).messages
      = [mkMessage 1 ⟨"tech", "a", "u"⟩, mkMessage 2 ⟨"tech", "b", "u"⟩] ∧
    onPublication { clientInit with currentTopic := "tech" } "general"
        (mkMessage 3 ⟨"general", "c", "u"⟩)
      = { clientInit with currentTopic := "tech" } := by
  constructor
  · have h := (C6_delivery_filter { clientInit with currentTopic := "tech" } "tech"
      (mkMessage 1 ⟨"tech", "a", "u"⟩)
      [mkMessage 1 ⟨"tech", "a", "u"⟩, mkMessage 2 ⟨"tech", "b", "u"⟩]).2.2 rfl
    simpa using h
  · exact (C6_delivery_filter { clientInit with currentTopic := "tech" } "general"
      (mkMessage 3 ⟨"general", "c", "u"⟩) []).2.1 (by decide)

/-- C7: a username change to a new non-initial value while the previously
applied username is non-initial emits exactly one
disconnect → 500ms delay → credential fetch → connect → rejoin(ActiveTopic)
cycle, and re-evaluating the reactive statement afterwards with the same
username emits nothing further; during initial mount (previous username
empty/initial) no cycle is emitted. -/
theorem C7_identity_change_cycle (u prev topic : String) :
    (prev ≠ "" → u ≠ "" → u ≠ prev →
      usernameReaction prev u topic = (u, reconnectCycle topic) ∧
      usernameReaction (usernameReaction prev u topic).1 u topic = (u, [])) ∧
    usernameReaction "" u topic = (u, []) := by
  constructor
  · intro hp hu hne
    have h1 : usernameReaction prev u topic = (u, reconnectCycle topic) := by
      unfold usernameReaction
      rw [if_pos ⟨hu, hne, hp⟩]
    refine ⟨h1, ?_⟩
    rw [h1]
    unfold usernameReaction
    rw [if_neg (by rintro ⟨_, hx, _⟩; exact hx rfl), if_neg hu]
  · unfold usernameReaction
    rw [if_neg (by rintro ⟨_, _, hx⟩; exact hx rfl), if_pos rfl]

/-- C7 witness: changing `"bob"` to `"alice"` with active topic `"general"`
emits the single reconnect cycle, a second evaluation emits nothing, and the
initial mount emits nothing. -/
theorem C7_identity_change_cycle_witness :
    usernameReaction "bob" "alice" "general" = ("alice", reconnectCycle "general") ∧
    usernameReaction "alice" "alice" "general" = ("alice", []) ∧
    usernameReaction "" "alice" "general" = ("alice", []) := by
  have h := C7_identity_change_cycle "alice" "bob" "general"
  have h1 := h.1 (by decide) (by decide) (by decide)
  refine ⟨h1.1, ?_, h.2⟩
  have h2 := h1.2
  rw [h1.1] at h2
  exact h2

/-- C8: when the credential fetch fails (transport error or non-OK response),
`getTokenAndConnect` still opens a connection — unauthenticated, with no
token — and the failure is not propagated to the caller; a connection is
opened on every path. -/
theorem C8_token_fetch_fallback :
    (∀ r, (getTokenAndConnect r).connectionOpened = true ∧
      (getTokenAndConnect r).errorPropagated = false) ∧
    getTokenAndConnect TokenFetch.fetchFailed
      = { connectionOpened := true, tokenUsed := none, errorPropagated := false } ∧
    getTokenAndConnect TokenFetch.badStatus
      = { connectionOpened := true, tokenUsed := none, errorPropagated := false } := by
  refine ⟨fun r => ?_, rfl, rfl⟩
  cases r <;> exact ⟨rfl, rfl⟩

/-- C9: the code violates the no-reuse-across-generations requirement.  After
connecting under generation 0 (which registers the handle for `topic:all`),
an identity-change reconnect moves the client to generation 1, but the
re-join of the active topic finds the never-cleared registry entry and
installs the generation-0 handle as the active subscription of the
generation-1 connection. -/
theorem C9_stale_handle_reused_after_reconnect :
    (reconnectWithNewToken (onConnected clientInit)).generation = 1 ∧
    (reconnectWithNewToken (onConnected clientInit)).subscription
      = some { id := 0, channel := mkChannelName "all", generation := 0 } := by
  decide

/-- C10: a request whose body fails JSON binding is answered with the
format-error 400 — not the field-validation error — and no message is
constructed and no publish is attempted. -/
theorem C10_malformed_body (pub : String → Message → Bool) (now : Nat) :
    sendMessage pub now none =
      { response := .badRequest "Invalid request format", attempts := [] } := rfl

end Centrifugo
